import Mathlib

/-!
Verification of the table-layout configuration model and renderer of
`CSVToLatex.py` (class `CSVToLaTeX`).

The class state and each method are embedded as Lean functions.  The CSV
reader is replaced by an explicit list of rows (`List (List String)`), the
output file by the string the method writes.  Python exceptions are made
explicit: setters return the (possibly mutated) object together with an
optional error message, mirroring Python's mutate-then-raise order, and the
renderer returns the text written so far, the mutated object and an
optional error.  Python's `list` indexing (including negative indices and
`IndexError`) is modelled by `pyIdx`/`pySetL`.
-/

/-- State of a `CSVToLaTeX` object: the attributes assigned in `__init__`
and by the setters.  The ad hoc `self.keys` dict is represented by one
optional field per key the class ever stores in it (`bold`, `clines`,
`rlines`).  `columns` may hold the raw string form (`Sum.inl`) or the
per-column list form (`Sum.inr`); `keys_rlines` may hold a string
(`"all"`/`"none"`) or a list of row indices. -/
structure CSVToLaTeX where
  headers : Option (List String)
  include_headers : Bool
  ncols : Nat
  columns : Option (Sum String (List String))
  keys_bold : Option Bool
  keys_clines : Option (List String)
  keys_rlines : Option (Sum String (List Int))
  formatters : List (String → String)

/-- Header post-processing in `__init__`: if the first header's first
character is `#` it is dropped (`self.headers[0] = self.headers[0][1:]`);
the `try/except: pass` makes an empty list or empty first string a no-op. -/
def stripHash : List String → List String
  | [] => []
  | h :: t => (if h.data.head? = some '#' then String.mk h.data.tail else h) :: t

/-- `__init__(fname, ncols, header)`: the row list stands in for the csv
reader; on success it returns the constructed object and the rows left in
the reader (the first row is consumed when `header` is true). -/
def init (rows : List (List String)) (ncols : Option Nat) (header : Bool) :
    Except String (CSVToLaTeX × List (List String)) :=
  if ncols = none ∧ header = false then
    .error "ValueError: If the file does not include a header, please provide the number of columns"
  else if header then
    match rows with
    | [] => .error "StopIteration"
    | r :: rest =>
        let hs := stripHash r
        match ncols with
        | some k =>
            if hs.length ≠ k then
              .error "ValueError: Number of columns does not match number of headers!"
            else
              .ok (⟨some hs, true, hs.length, none, none, none, none,
                    List.replicate hs.length (fun s => s)⟩, rest)
        | none =>
            .ok (⟨some hs, true, hs.length, none, none, none, none,
                  List.replicate hs.length (fun s => s)⟩, rest)
  else
    match ncols with
    | some k =>
        .ok (⟨none, false, k, none, none, none, none,
              List.replicate k (fun s => s)⟩, rows)
    | none => .error "unreachable"

/-- `set_headers(headers, bold)`: length check, then replace headers,
enable header rendering and record the bold flag in the key dict. -/
def set_headers (m : CSVToLaTeX) (headers : List String) (bold : Bool) :
    CSVToLaTeX × Option String :=
  if headers.length = m.ncols then
    ({ m with headers := some headers, include_headers := true, keys_bold := some bold }, none)
  else
    (m, some "ValueError: Number of headers does not match number of columns")

/-- Normalization of one alignment token in `set_columns`:
`center`→`c`, `left`→`l`, `right`→`r`, anything else unchanged. -/
def normToken (t : String) : String :=
  if t = "center" then "c"
  else if t = "left" then "l"
  else if t = "right" then "r"
  else t

/-- `set_columns(columns)`.  A string argument is first assigned to
`self.columns` verbatim, then length-checked against `ncols` (raising on
mismatch) and, when the length matches, rebuilt character by character
through the normalization loop (a one-character string never equals
`center`/`left`/`right`, so each character passes through).  A list
argument is length-checked and normalized element-wise. -/
def set_columns (m : CSVToLaTeX) (columns : Sum String (List String)) :
    CSVToLaTeX × Option String :=
  match columns with
  | .inl s =>
      if s.length = m.ncols then
        ({ m with columns := some (.inr ((s.toList.map Char.toString).map normToken)) }, none)
      else
        ({ m with columns := some (.inl s) },
         some "ValueError: Number of columns given does not correspond to ncols")
  | .inr l =>
      if l.length = m.ncols then
        ({ m with columns := some (.inr (l.map normToken)) }, none)
      else
        (m, some "ValueError: Number of columns given does not correspond to ncols")

/-- Argument shapes of `set_column_lines`: a string, a list whose first
element is an `int` (index form), or a list whose first element is a
string (explicit token form).  The code dispatches on `type(lines)` and
`type(lines[0])`. -/
inductive LinesArg where
  | lstr (s : String)
  | lints (l : List Int)
  | ltoks (l : List String)

/-- Python index resolution for a list of length `n`: non-negative indices
must be `< n`, negative indices count from the end. -/
def pyIdx (n : Nat) (i : Int) : Option Nat :=
  if 0 ≤ i then
    if i < (n : Int) then some i.toNat else none
  else
    if 0 ≤ i + (n : Int) then some (i + (n : Int)).toNat else none

/-- Python `l[i] = v` on a string list: `none` models `IndexError`. -/
def pySetL (l : List String) (i : Int) (v : String) : Option (List String) :=
  (pyIdx l.length i).map (fun k => l.set k v)

/-- The loop `for i in lines: l[i] = "|"` of `set_column_lines`. -/
def markLines : List String → List Int → Option (List String)
  | acc, [] => some acc
  | acc, i :: rest =>
      match pySetL acc i "|" with
      | some acc2 => markLines acc2 rest
      | none => none

/-- `set_column_lines(lines)`: `"all"`/`"none"` build a full token list,
any other string does nothing; a non-empty int list marks the given
positions in an all-empty list of length `ncols+1`; a non-empty token list
is stored verbatim; an empty list raises at the `lines[0]` type test. -/
def set_column_lines (m : CSVToLaTeX) (lines : LinesArg) : CSVToLaTeX × Option String :=
  match lines with
  | .lstr s =>
      if s = "all" then
        ({ m with keys_clines := some (List.replicate (m.ncols + 1) "|") }, none)
      else if s = "none" then
        ({ m with keys_clines := some (List.replicate (m.ncols + 1) "") }, none)
      else (m, none)
  | .lints l =>
      match l with
      | [] => (m, some "IndexError: list index out of range")
      | _ :: _ =>
          match markLines (List.replicate (m.ncols + 1) "") l with
          | some r => ({ m with keys_clines := some r }, none)
          | none => (m, some "IndexError: list assignment index out of range")
  | .ltoks l =>
      match l with
      | [] => (m, some "IndexError: list index out of range")
      | _ :: _ => ({ m with keys_clines := some l }, none)

/-- `set_column_line(idx, line)`: initialize `clines` to all-empty via
`set_column_lines("none")` when absent, then `self.keys["clines"][idx] = line`. -/
def set_column_line (m : CSVToLaTeX) (idx : Int) (line : String) : CSVToLaTeX × Option String :=
  let m1 := match m.keys_clines with
    | none => (set_column_lines m (.lstr "none")).1
    | some _ => m
  match m1.keys_clines with
  | some cl =>
      match pySetL cl idx line with
      | some cl2 => ({ m1 with keys_clines := some cl2 }, none)
      | none => (m1, some "IndexError: list assignment index out of range")
  | none => (m1, some "IndexError: list assignment index out of range")

/-- `set_row_lines(lines)`: stored verbatim in the key dict. -/
def set_row_lines (m : CSVToLaTeX) (lines : Sum String (List Int)) : CSVToLaTeX :=
  { m with keys_rlines := some lines }

/-- Bold wrapping applied to each header cell when the `bold` key is set. -/
def wrapBold (s : String) : String := "\\textbf\x7b" ++ s ++ "\x7d"

/-- Lines 235–236 of `tolatex`: default the columns to `["c"]*ncols` when
they were never set. -/
def resolveCols (m : CSVToLaTeX) : Sum String (List String) :=
  match m.columns with
  | none => .inr (List.replicate m.ncols "c")
  | some c => c

/-- The loop `for i in range(ncols): colstr += columns[i] + lines[i+1]`;
the fuel counts the remaining iterations, out-of-range access is an error. -/
def colstrGo (cols lines : List String) : Nat → Nat → String → Except String String
  | _, 0, acc => .ok acc
  | i, fuel + 1, acc =>
      match cols.get? i, lines.get? (i + 1) with
      | some c, some l => colstrGo cols lines (i + 1) fuel (acc ++ c ++ l)
      | _, _ => .error "IndexError: list index out of range"

/-- Column-spec resolution of `tolatex`: a string form is used verbatim;
otherwise the separators (defaulting to all-empty) are interleaved with
the alignment tokens. -/
def colstrOf (cols : Sum String (List String)) (clines : Option (List String)) (ncols : Nat) :
    Except String String :=
  match cols with
  | .inl s => .ok s
  | .inr cl =>
      let lines := clines.getD (List.replicate (ncols + 1) "")
      match lines.get? 0 with
      | none => .error "IndexError: list index out of range"
      | some l0 => colstrGo cl lines 0 ncols l0

/-- Lines 251–260 of `tolatex`: resolve the `rlines` key to the
`all_lines` flag and the index list (with the large sentinel defaults). -/
def resolveRlines : Option (Sum String (List Int)) → Bool × List Int
  | none => (false, [(10000000000 : Int)])
  | some (.inl s) =>
      if s = "all" then (true, [])
      else if s = "none" then (false, [(100000000 : Int)])
      else (false, [])
  | some (.inr l) => (false, l)

/-- `"bold" in self.keys and self.keys["bold"]`. -/
def boldOf (m : CSVToLaTeX) : Bool := m.keys_bold.getD false

/-- The header block of `tolatex`: returns the headers as stored after the
block (bold wrapping mutates `self.headers` in place) and the text written
(or the error raised when `include_headers` is truthy but headers are `None`). -/
def headerBlock (include_headers : Bool) (headers : Option (List String)) (bold : Bool) :
    Option (List String) × Except String String :=
  if include_headers then
    match headers with
    | none => (none, .error "TypeError: can only join an iterable")
    | some hs =>
        let hs2 := if bold then hs.map wrapBold else hs
        (some hs2, .ok ("\\hline\n" ++ String.intercalate " & " hs2 ++ "\\\\\n\\hline\n"))
  else (headers, .ok "")

/-- The cell comprehension `[self.formatters[i](row[i]) for i in range(self.ncols)]`. -/
def cellsGo (fmts : List (String → String)) (row : List String) :
    Nat → Nat → List String → Except String (List String)
  | _, 0, acc => .ok acc.reverse
  | i, fuel + 1, acc =>
      match fmts.get? i, row.get? i with
      | some f, some v => cellsGo fmts row (i + 1) fuel (f v :: acc)
      | _, _ => .error "IndexError: list index out of range"

/-- The row loop of `tolatex`: one output line per row, then the
horizontal-line decision (`all_lines`, or cursor `idx` through `rlines`). -/
def rowsGo (ncols : Nat) (fmts : List (String → String)) (all_lines : Bool) (rlines : List Int) :
    List (List String) → Int → Nat → String → String × Option String
  | [], _, _, acc => (acc, none)
  | row :: rest, rownr, idx, acc =>
      match cellsGo fmts row 0 ncols [] with
      | .error e => (acc, some e)
      | .ok cells =>
          let acc2 := acc ++ String.intercalate " & " cells ++ "\\\\\n"
          if all_lines then
            rowsGo ncols fmts all_lines rlines rest (rownr + 1) idx (acc2 ++ "\\hline\n")
          else
            match rlines.get? idx with
            | some v =>
                if rownr = v then
                  rowsGo ncols fmts all_lines rlines rest (rownr + 1) (idx + 1) (acc2 ++ "\\hline\n")
                else rowsGo ncols fmts all_lines rlines rest (rownr + 1) idx acc2
            | none => rowsGo ncols fmts all_lines rlines rest (rownr + 1) idx acc2

/-- Rows, the `rlines[-1] == -1` check after the loop (an `IndexError` on
an empty list), and the closing directive. -/
def renderTail (ncols : Nat) (fmts : List (String → String)) (all_lines : Bool)
    (rlines : List Int) (rows : List (List String)) : String × Option String :=
  match rowsGo ncols fmts all_lines rlines rows 0 0 "" with
  | (body, some e) => (body, some e)
  | (body, none) =>
      match rlines.getLast? with
      | none => (body, some "IndexError: list index out of range")
      | some v =>
          ((if v = -1 then body ++ "\\hline\n" else body) ++ "\\end\x7btabular\x7d", none)

/-- Result of `tolatex`: the text written to the output file up to the
point of return or error, the object state afterwards, and the error. -/
structure RenderResult where
  out : String
  model : CSVToLaTeX
  err : Option String

/-- `tolatex(fname)` with the reader replaced by `rows` and the output
file by the returned string. -/
def tolatex (m : CSVToLaTeX) (rows : List (List String)) : RenderResult :=
  let cols := resolveCols m
  match colstrOf cols m.keys_clines m.ncols with
  | .error e => ⟨"", { m with columns := some cols }, some e⟩
  | .ok colstr =>
      let out0 := "\\begin\x7btabular\x7d\x7b" ++ colstr ++ "\x7d\n"
      let hb := headerBlock m.include_headers m.headers (boldOf m)
      let m2 := { m with columns := some cols, headers := hb.1 }
      match hb.2 with
      | .error e => ⟨out0, m2, some e⟩
      | .ok ho =>
          let rl := resolveRlines m.keys_rlines
          let t := renderTail m.ncols m.formatters rl.1 rl.2 rows
          ⟨out0 ++ ho ++ t.1, m2, t.2⟩

/-- A Python attribute value, as far as the `include_headers` name clash
needs: a plain `bool`, a function defined on the class, or anything else. -/
inductive PyAttrVal where
  | pbool (b : Bool)
  | pfun (name : String)
  | pother
  deriving DecidableEq

/-- The class dictionary of `CSVToLaTeX`: its `def`s, among them the
`include_headers` method. -/
def classDict : List (String × PyAttrVal) :=
  [("include_headers", .pfun "include_headers"),
   ("set_headers", .pfun "set_headers"),
   ("set_columns", .pfun "set_columns"),
   ("set_column_lines", .pfun "set_column_lines"),
   ("set_column_line", .pfun "set_column_line"),
   ("set_row_lines", .pfun "set_row_lines"),
   ("set_formatters", .pfun "set_formatters"),
   ("set_formatter", .pfun "set_formatter"),
   ("tolatex", .pfun "tolatex"),
   ("close", .pfun "close")]

/-- The instance dictionary after `__init__` returns: the attributes it
assigns on `self`, in particular `self.include_headers = True/False`. -/
def instanceDict (m : CSVToLaTeX) : List (String × PyAttrVal) :=
  [("file", .pother),
   ("reader", .pother),
   ("headers", .pother),
   ("include_headers", .pbool m.include_headers),
   ("ncols", .pother),
   ("columns", .pother),
   ("keys", .pother),
   ("formatters", .pother)]

/-- First-match lookup in an attribute dictionary. -/
def dictGet : List (String × PyAttrVal) → String → Option PyAttrVal
  | [], _ => none
  | (k, v) :: rest, key => if k = key then some v else dictGet rest key

/-- Python attribute resolution on an instance whose class methods are
plain functions: the instance dictionary wins over the class dictionary. -/
def getattrAfterInit (m : CSVToLaTeX) (name : String) : Option PyAttrVal :=
  match dictGet (instanceDict m) name with
  | some v => some v
  | none => dictGet classDict name

/-- Calling an attribute: only functions are callable. -/
def pycallAttr (m : CSVToLaTeX) (name : String) : Except String Unit :=
  match getattrAfterInit m name with
  | some (.pfun _) => .ok ()
  | some (.pbool _) => .error "TypeError: bool object is not callable"
  | some .pother => .error "TypeError: object is not callable"
  | none => .error "AttributeError"

/-! ### Fixture objects (fresh post-construction states at various `ncols`) -/

/-- A freshly constructed object with `ncols = 1` and no headers, with the
row-separator policy set to `"all"` via `set_row_lines`. -/
def mAllRows : CSVToLaTeX :=
  set_row_lines ⟨none, false, 1, none, none, none, none, [fun s => s]⟩ (.inl "all")

/-- A freshly constructed object with `ncols = 3` and no headers. -/
def mThree : CSVToLaTeX :=
  ⟨none, false, 3, none, none, none, none, List.replicate 3 (fun s => s)⟩

/-- A freshly constructed object with `ncols = 2` and no headers. -/
def mTwo : CSVToLaTeX :=
  ⟨none, false, 2, none, none, none, none, List.replicate 2 (fun s => s)⟩

/-- An object with one bold header enabled, as left by
`set_headers(["A"], bold=True)` and `set_row_lines("none")`. -/
def mBoldHeader : CSVToLaTeX :=
  ⟨some ["A"], true, 1, some (.inr ["c"]), some true, none, some (.inl "none"), [fun s => s]⟩

/-- The scenario model of the specification: `ncols = 3`, defaults
everywhere, horizontal separators `"none"`. -/
def mScenario : CSVToLaTeX :=
  set_row_lines ⟨none, false, 3, none, none, none, none, List.replicate 3 (fun s => s)⟩
    (.inl "none")

/-! ### Helper lemmas -/

theorem pySetL_length {l l2 : List String} {i : Int} {v : String}
    (h : pySetL l i v = some l2) : l2.length = l.length := by
  unfold pySetL at h
  cases hk : pyIdx l.length i with
  | none => rw [hk] at h; simp at h
  | some k =>
      rw [hk] at h
      simp only [Option.map_some'] at h
      cases h
      exact List.length_set l k v

theorem markLines_length : ∀ (l : List Int) (acc r : List String),
    markLines acc l = some r → r.length = acc.length := by
  intro l
  induction l with
  | nil => intro acc r h; cases h; rfl
  | cons i rest ih =>
      intro acc r h
      unfold markLines at h
      cases hs : pySetL acc i "|" with
      | none => rw [hs] at h; cases h
      | some acc2 =>
          rw [hs] at h
          exact (ih acc2 r h).trans (pySetL_length hs)

theorem headerBlock_fst_of_not_bold {i b : Bool} {h : Option (List String)}
    (hyp : ¬(i = true ∧ b = true)) : (headerBlock i h b).1 = h := by
  cases i with
  | false => simp [headerBlock]
  | true =>
      have hb : b = false := by
        cases b with
        | false => rfl
        | true => exact absurd ⟨rfl, rfl⟩ hyp
      subst hb
      cases h with
      | none => simp [headerBlock]
      | some hs => simp [headerBlock]

theorem resolveCols_set (m : CSVToLaTeX) (c : Sum String (List String)) :
    resolveCols { m with columns := some c } = c := rfl

/-- Under the no-bold-headers hypothesis, `tolatex` changes the object
only by materializing the default columns. -/
theorem tolatex_model_eq (m : CSVToLaTeX) (rows : List (List String))
    (hyp : ¬(m.include_headers = true ∧ boldOf m = true)) :
    (tolatex m rows).model = { m with columns := some (resolveCols m) } := by
  have hhb : (headerBlock m.include_headers m.headers (boldOf m)).1 = m.headers :=
    headerBlock_fst_of_not_bold hyp
  unfold tolatex
  cases hc : colstrOf (resolveCols m) m.keys_clines m.ncols with
  | error e => simp [hc]
  | ok colstr =>
      cases hh : (headerBlock m.include_headers m.headers (boldOf m)).2 with
      | error e => simp [hc, hh, hhb]
      | ok ho => simp [hc, hh, hhb]

/-- Materializing the default columns does not change what `tolatex`
writes: the renderer reads the columns only through `resolveCols`. -/
theorem tolatex_out_set_columns (m : CSVToLaTeX) (rows : List (List String)) :
    (tolatex { m with columns := some (resolveCols m) } rows).out = (tolatex m rows).out := by
  unfold tolatex
  simp only [resolveCols_set, boldOf]

/-! ### Claim theorems -/

/-- C1: at the failing input — horizontal-separator policy `"all"` with one
data row — `tolatex` aborts with an `IndexError` (it evaluates `rlines[-1]`
while `rlines == []`), and the text produced does not end with the
table-close directive, contrary to the claim. -/
theorem c1_all_policy_render_aborts :
    (tolatex mAllRows [["x"]]).err = some "IndexError: list index out of range" ∧
    (tolatex mAllRows [["x"]]).out = "\\begin\x7btabular\x7d\x7bc\x7d\nx\\\\\n\\hline\n" ∧
    (tolatex mAllRows [["x"]]).out.data.reverse.take 13 ≠
      ("\\end\x7btabular\x7d" : String).data.reverse := by
  decide

/-- C2: at the failing inputs — `ncols = 3` — a string argument to
`set_columns` is not used verbatim: `"lc"` raises a `ValueError` (after
having stored the string), `"lcr"` is rebuilt as the per-character list
`["l", "c", "r"]`, and vertical-separator composition stays active, so a
subsequent `set_column_lines("all")` renders the column spec `|l|c|r|`
rather than the literal `lcr`. -/
theorem c2_string_columns_not_verbatim :
    (set_columns mThree (.inl "lc")).2 =
      some "ValueError: Number of columns given does not correspond to ncols" ∧
    (set_columns mThree (.inl "lc")).1.columns = some (.inl "lc") ∧
    (set_columns mThree (.inl "lcr")).2 = none ∧
    (set_columns mThree (.inl "lcr")).1.columns = some (.inr ["l", "c", "r"]) ∧
    (tolatex (set_column_lines (set_columns mThree (.inl "lcr")).1 (.lstr "all")).1 []).out =
      "\\begin\x7btabular\x7d\x7b|l|c|r|\x7d\n\\end\x7btabular\x7d" := by
  decide

/-- C3 counterexample: with a bold header, rendering twice against the same
(now mutated) object and an identical fresh row source yields different
text — the second run bold-wraps the already-wrapped header again. -/
theorem c3_double_render_bold_differs :
    (tolatex (tolatex mBoldHeader []).model []).out ≠ (tolatex mBoldHeader []).out := by
  decide

/-- C3 (amended): rendering twice against independently-fed identical row
sources with the same object produces byte-identical output provided bold
header styling is not active (header rendering off, or the bold key unset);
with bold headers active the second run double-wraps the header cells. -/
theorem c3_render_idempotent_no_bold (m : CSVToLaTeX) (rows : List (List String))
    (hyp : ¬(m.include_headers = true ∧ boldOf m = true)) :
    (tolatex (tolatex m rows).model rows).out = (tolatex m rows).out := by
  rw [tolatex_model_eq m rows hyp, tolatex_out_set_columns]

theorem c3_render_idempotent_no_bold_witness :
    (tolatex (tolatex mScenario [["1", "2", "3"]]).model [["1", "2", "3"]]).out =
      (tolatex mScenario [["1", "2", "3"]]).out :=
  c3_render_idempotent_no_bold mScenario [["1", "2", "3"]] (by decide)

/-- C4 counterexample: `tolatex` mutates the object when the columns were
never configured — it stores the default alignment list, so the
`column_alignment` field differs after rendering. -/
theorem c4_render_mutates_columns :
    (tolatex mThree []).model.columns ≠ mThree.columns := by
  decide

/-- C4 (amended): `tolatex` leaves the object unchanged provided the
columns were configured before rendering and bold header styling is not
active; otherwise it writes the default alignment list into `columns`
and/or bold-wraps the stored headers in place. -/
theorem c4_render_preserves_model (m : CSVToLaTeX) (rows : List (List String))
    (h1 : m.columns ≠ none) (h2 : ¬(m.include_headers = true ∧ boldOf m = true)) :
    (tolatex m rows).model = m := by
  rw [tolatex_model_eq m rows h2]
  cases hcol : m.columns with
  | none => exact absurd hcol h1
  | some c =>
      have hres : resolveCols m = c := by simp [resolveCols, hcol]
      rw [hres, ← hcol]

theorem c4_render_preserves_model_witness :
    (tolatex (set_columns mThree (.inr ["left", "center", "right"])).1 [["1", "2", "3"]]).model =
      (set_columns mThree (.inr ["left", "center", "right"])).1 :=
  c4_render_preserves_model _ _ (by decide) (by decide)

/-- C5 counterexample: an explicit token sequence of the wrong length is
accepted by `set_column_lines` and stored verbatim — with `ncols = 2` the
one-token list `["x"]` is stored although `ncols + 1 = 3`. -/
theorem c5_explicit_tokens_unchecked :
    (set_column_lines mTwo (.ltoks ["x"])).2 = none ∧
    (set_column_lines mTwo (.ltoks ["x"])).1.keys_clines = some ["x"] ∧
    ((set_column_lines mTwo (.ltoks ["x"])).1.keys_clines.getD []).length ≠ mTwo.ncols + 1 := by
  decide

/-- C5 (amended): the `"all"`, `"none"` and integer-index forms of
`set_column_lines` do store a separator configuration of length
`ncols + 1` (for the index form, whenever the call succeeds); the fully
explicit token-sequence form is stored verbatim without any length check. -/
theorem c5_constructive_forms_length (m : CSVToLaTeX) (l : List Int) :
    (∀ s, s = "all" ∨ s = "none" →
      ∃ cl, (set_column_lines m (.lstr s)).1.keys_clines = some cl ∧
        cl.length = m.ncols + 1) ∧
    ((set_column_lines m (.lints l)).2 = none →
      ∃ cl, (set_column_lines m (.lints l)).1.keys_clines = some cl ∧
        cl.length = m.ncols + 1) := by
  constructor
  · rintro s (rfl | rfl)
    · exact ⟨List.replicate (m.ncols + 1) "|", rfl, by simp⟩
    · exact ⟨List.replicate (m.ncols + 1) "", rfl, by simp⟩
  · intro hsucc
    cases l with
    | nil => simp [set_column_lines] at hsucc
    | cons i rest =>
        cases hm : markLines (List.replicate (m.ncols + 1) "") (i :: rest) with
        | none => simp [set_column_lines, hm] at hsucc
        | some r =>
            refine ⟨r, ?_, ?_⟩
            · simp [set_column_lines, hm]
            · have := markLines_length (i :: rest) _ r hm
              simpa using this

theorem c5_constructive_forms_length_witness :
    ∃ cl, (set_column_lines mTwo (.lints [0])).1.keys_clines = some cl ∧
      cl.length = mTwo.ncols + 1 :=
  (c5_constructive_forms_length mTwo [0]).2 (by decide)

/-- C6: at the failing input `ncols = 2`, `set_column_line(3, "|")` (index
`ncols + 1`) raises an `IndexError` instead of addressing the rightmost
edge — the stored list has positions `0..ncols` only — while the claim's
other parts hold: the configuration is first initialized to all-empty
tokens, index `-1` addresses the rightmost edge and index `0` the
leftmost. -/
theorem c6_ncols_plus_one_raises :
    (set_column_line mTwo 3 "|").2 = some "IndexError: list assignment index out of range" ∧
    (set_column_line mTwo 3 "|").1.keys_clines = some ["", "", ""] ∧
    (set_column_line mTwo (-1) "|").2 = none ∧
    (set_column_line mTwo (-1) "|").1.keys_clines = some ["", "", "|"] ∧
    (set_column_line mTwo 0 "|").2 = none ∧
    (set_column_line mTwo 0 "|").1.keys_clines = some ["|", "", ""] := by
  decide

/-- C7: when header derivation is requested (and any explicit column count
agrees), construction consumes the first row and stores it as the headers,
removing a leading `#` from the first header string when present; an empty
first header string (or an empty first row) raises nothing and the headers
are stored as read. -/
theorem c7_header_extraction (h : String) (t : List String) (rest : List (List String))
    (nc : Option Nat) (hnc : nc = none ∨ nc = some (t.length + 1)) :
    init ((h :: t) :: rest) nc true =
      .ok (⟨some ((if h.data.head? = some '#' then String.mk h.data.tail else h) :: t),
            true, t.length + 1, none, none, none, none,
            List.replicate (t.length + 1) (fun s => s)⟩, rest) := by
  rcases hnc with rfl | rfl
  · rfl
  · simp [init, stripHash]

theorem c7_header_extraction_witness :
    init [["#A", "B"], ["x", "y"]] none true =
      .ok (⟨some ["A", "B"], true, 2, none, none, none, none,
            List.replicate 2 (fun s => s)⟩, [["x", "y"]]) ∧
    init [["", "B"], ["x", "y"]] none true =
      .ok (⟨some ["", "B"], true, 2, none, none, none, none,
            List.replicate 2 (fun s => s)⟩, [["x", "y"]]) :=
  ⟨c7_header_extraction "#A" ["B"] [["x", "y"]] none (Or.inl rfl),
   c7_header_extraction "" ["B"] [["x", "y"]] none (Or.inl rfl)⟩

/-- C8: `set_headers` fails (with the length-mismatch error) exactly when
the header count differs from `ncols`, leaving the object unchanged; on a
matching count it replaces the headers, enables header rendering and
records the bold flag. -/
theorem c8_set_headers_spec (m : CSVToLaTeX) (headers : List String) (bold : Bool) :
    (headers.length ≠ m.ncols →
      set_headers m headers bold =
        (m, some "ValueError: Number of headers does not match number of columns")) ∧
    (headers.length = m.ncols →
      set_headers m headers bold =
        ({ m with headers := some headers, include_headers := true, keys_bold := some bold },
         none)) := by
  constructor
  · intro hne; simp [set_headers, hne]
  · intro heq; simp [set_headers, heq]

theorem c8_set_headers_spec_witness :
    set_headers mTwo ["A"] false =
      (mTwo, some "ValueError: Number of headers does not match number of columns") ∧
    set_headers mTwo ["A", "B"] true =
      ({ mTwo with headers := some ["A", "B"], include_headers := true, keys_bold := some true },
       none) :=
  ⟨(c8_set_headers_spec mTwo ["A"] false).1 (by decide),
   (c8_set_headers_spec mTwo ["A", "B"] true).2 (by decide)⟩

/-- C9: the specification scenario — three columns, rows
`[["1","2","3"], ["4","5","6"]]`, defaults everywhere, horizontal
separators `"none"` — renders exactly the claimed text, with no error. -/
theorem c9_scenario_exact_output :
    (tolatex mScenario [["1", "2", "3"], ["4", "5", "6"]]).out =
      "\\begin\x7btabular\x7d\x7bccc\x7d\n1 & 2 & 3\\\\\n4 & 5 & 6\\\\\n\\end\x7btabular\x7d" ∧
    (tolatex mScenario [["1", "2", "3"], ["4", "5", "6"]]).err = none := by
  decide

/-- C10: on every object the constructor returns, the name
`include_headers` resolves to the boolean instance attribute assigned in
`__init__` (which shadows the class method of the same name), and calling
it raises a `TypeError`. -/
theorem c10_include_headers_shadowed (rows : List (List String)) (nc : Option Nat)
    (hdr : Bool) (m : CSVToLaTeX) (rest : List (List String))
    (_hinit : init rows nc hdr = .ok (m, rest)) :
    getattrAfterInit m "include_headers" = some (.pbool m.include_headers) ∧
    pycallAttr m "include_headers" = .error "TypeError: bool object is not callable" :=
  ⟨rfl, rfl⟩

theorem c10_include_headers_shadowed_witness :
    pycallAttr ⟨none, false, 1, none, none, none, none, List.replicate 1 (fun s => s)⟩
        "include_headers" = .error "TypeError: bool object is not callable" :=
  (c10_include_headers_shadowed [["a"]] (some 1) false
      ⟨none, false, 1, none, none, none, none, List.replicate 1 (fun s => s)⟩ [["a"]] rfl).2
